import Mathlib

/-!
Shallow embedding of the bullwhip-effect supply-chain simulator (src/app.py).

The script simulates a fixed 4-stage chain (Retailer, Wholesaler, Distributor,
Manufacturer) over `T` discrete periods.  Arrays `orders`, `forecast`,
`on_hand`, `stockouts` of shape (4, T) are initialized (orders and stockouts
to 0, forecast to `mean_demand`, `on_hand[i,0]` to
`fixed_safety_stock + mean_demand * 1.5`) and then filled by a double loop
`for t in range(1, T): for i in range(stages):` performing (per the comments
in the source): demand realization, shipment receipt with lead-time delay,
inventory update with lost-sales clamping, exponential-smoothing forecast,
pipeline/inventory-position computation, and base-stock order generation with
shortage-gaming inflation.

We embed the numeric state over `ℚ` (the Python floats carry exact decimal
slider values here; none of the claims concerns rounding, and the one place
where IEEE special values matter — the bullwhip variance ratio — is modelled
explicitly by `FVal` below).  The quantity
`fixed_safety_stock = safety_stock_multiplier * std_demand * sqrt(lead_time+1)`
(line 58) is computed once before the loop; since `sqrt` is irrational in
general we carry its computed value as the configuration field
`fixed_safety_stock`, and characterize it against the formula by the exact
condition `fixed_safety_stock ≥ 0 ∧
fixed_safety_stock ^ 2 = safety_stock_multiplier ^ 2 * std_demand ^ 2 * (lead_time + 1)`.

The script hardcodes `T = 400`, `mean_demand = 100`, `std_demand = 30`,
`burn_in = 100`, `stages = 4`; we keep the horizon, burn-in and reference
statistics as parameters (the spec requires them configurable) and fix the
stage count at 4 as the source does.
-/

namespace Bullwhip

/-- The decision variables of the sidebar (lines 40-44) together with the
script's reference constants.  `fixed_safety_stock` is the precomputed value
of `safety_stock_multiplier * std_demand * sqrt(lead_time + 1)` (line 58). -/
structure Config where
  lead_time : ℕ
  alpha : ℚ
  order_multiplier : ℚ
  safety_stock_multiplier : ℚ
  info_sharing : Bool
  mean_demand : ℚ
  std_demand : ℚ
  fixed_safety_stock : ℚ
  deriving DecidableEq, Repr

/-- Number of stages (line 47: `stages = 4`). -/
def stages : ℕ := 4

/-- All per-stage quantities computed for one stage in one period of the
core simulation loop (lines 65-105): the realized demand, the arriving
shipment, the pre-clamp inventory, the clamped on-hand inventory, the
stockout flag, the updated forecast, the raw (pre-gaming) order, and the
placed order. -/
structure Row where
  demand : ℚ
  arriving : ℚ
  pre_clamp : ℚ
  on_hand : ℚ
  stockout : Bool
  forecast : ℚ
  raw_order : ℚ
  order : ℚ
  deriving DecidableEq, Repr

/-- State of a stage at period 0, from the array initializations
(lines 51-54 and 60-62): orders 0, forecast `mean_demand`, stockout false,
on-hand `fixed_safety_stock + mean_demand * 1.5`.  The intermediate fields
(demand, arriving, raw_order) are never computed by the source at t = 0;
we record 0 for them and the pre-clamp value as the initial on-hand. -/
def initRow (cfg : Config) : Row :=
  { demand := 0
    arriving := 0
    pre_clamp := cfg.fixed_safety_stock + cfg.mean_demand * (3 / 2)
    on_hand := cfg.fixed_safety_stock + cfg.mean_demand * (3 / 2)
    stockout := false
    forecast := cfg.mean_demand
    raw_order := 0
    order := 0 }

/-- One stage-period body of the core loop (lines 67-105), for stage data at
period `t ≥ 1`: `dval` is `customer_demand[t]`, `oh0` and `f0` are the
stage's on-hand and forecast from period `t-1`, `pastO m` is the stage's own
order placed at period `m < t` (0 for a not-yet-written array entry), and
`dm` is the demand realized by this stage this period (step 1, supplied by
the caller since it reads the downstream stage's same-period order). -/
def mkRow (cfg : Config) (dval oh0 f0 : ℚ) (pastO : ℕ → ℚ) (t : ℕ) (dm : ℚ) :
    Row :=
  let arriving := if cfg.lead_time ≤ t then pastO (t - cfg.lead_time)
    else cfg.mean_demand
  let pre := oh0 + arriving - dm
  let oh := if pre < 0 then 0 else pre
  let obs := if cfg.info_sharing then dval else dm
  let f := cfg.alpha * obs + (1 - cfg.alpha) * f0
  let pipeline := ∑ k in Finset.Ico (t - cfg.lead_time) t, pastO k
  let target := f * (cfg.lead_time + 1) + cfg.fixed_safety_stock
  let raw := max (target - (oh + pipeline)) 0
  { demand := dm
    arriving := arriving
    pre_clamp := pre
    on_hand := oh
    stockout := decide (pre < 0)
    forecast := f
    raw_order := raw
    order := if cfg.mean_demand < raw then raw * cfg.order_multiplier else raw }

/-- The inner stage loop for period `t`: stage 0 realizes the external
customer demand `d t` (line 69), stage `i+1` realizes the order stage `i`
placed in the *same* period (line 71: `orders[i-1, t]`, already written by
this period's earlier iteration). -/
def stageRows (cfg : Config) (d : ℕ → ℚ) (prev : ℕ → Row)
    (pastO : ℕ → ℕ → ℚ) (t : ℕ) : ℕ → Row
  | 0 => mkRow cfg (d t) (prev 0).on_hand (prev 0).forecast (pastO 0) t (d t)
  | i + 1 => mkRow cfg (d t) (prev (i + 1)).on_hand (prev (i + 1)).forecast
      (pastO (i + 1)) t (stageRows cfg d prev pastO t i).order

/-- `upTo cfg d t k i` is the row of stage `i` at period `k`, computed using
the history up to period `t` (correct whenever `k ≤ t`).  Period `t+1` is
computed from the period-`t` rows and the orders of all earlier periods; an
order entry not yet written reads as its numpy initialization 0. -/
def upTo (cfg : Config) (d : ℕ → ℚ) : ℕ → ℕ → ℕ → Row
  | 0, _, _ => initRow cfg
  | t + 1, k, i =>
      if k ≤ t then upTo cfg d t k i
      else stageRows cfg d (fun j => upTo cfg d t t j)
        (fun j m => if m ≤ t then (upTo cfg d t m j).order else 0) (t + 1) i

/-- The full state of stage `i` at period `t`. -/
def row (cfg : Config) (d : ℕ → ℚ) (i t : ℕ) : Row := upTo cfg d t t i

/-- `orders[i, t]` (lines 51, 105). -/
def orders (cfg : Config) (d : ℕ → ℚ) (i t : ℕ) : ℚ := (row cfg d i t).order

/-- `forecast[i, t]` (lines 52, 89). -/
def forecast (cfg : Config) (d : ℕ → ℚ) (i t : ℕ) : ℚ :=
  (row cfg d i t).forecast

/-- `on_hand[i, t]` after clamping (lines 53, 80-85). -/
def on_hand (cfg : Config) (d : ℕ → ℚ) (i t : ℕ) : ℚ := (row cfg d i t).on_hand

/-- `stockouts[i, t]` as a Boolean (lines 54, 84). -/
def stockouts (cfg : Config) (d : ℕ → ℚ) (i t : ℕ) : Bool :=
  (row cfg d i t).stockout

/-- The demand realized by stage `i` at period `t` (lines 68-71). -/
def demand (cfg : Config) (d : ℕ → ℚ) (i t : ℕ) : ℚ := (row cfg d i t).demand

/-- `arriving_order`, the shipment credited to stage `i` at period `t`
(lines 74-77). -/
def arriving_order (cfg : Config) (d : ℕ → ℚ) (i t : ℕ) : ℚ :=
  (row cfg d i t).arriving

/-- The pre-clamp inventory value `on_hand[i,t-1] + arriving_order - demand`
(line 80, before the clamp of lines 83-85). -/
def pre_clamp (cfg : Config) (d : ℕ → ℚ) (i t : ℕ) : ℚ :=
  (row cfg d i t).pre_clamp

/-- `raw_order` before the shortage-gaming branch (line 99). -/
def raw_order (cfg : Config) (d : ℕ → ℚ) (i t : ℕ) : ℚ :=
  (row cfg d i t).raw_order

/-- `pipeline_inventory` (line 92): the stage's own orders placed in
periods `[max(0, t - lead_time), t)`. -/
def pipeline_inventory (cfg : Config) (d : ℕ → ℚ) (i t : ℕ) : ℚ :=
  ∑ k in Finset.Ico (t - cfg.lead_time) t, orders cfg d i k

/-- `inventory_position` (line 93): post-clamp on-hand plus pipeline. -/
def inventory_position (cfg : Config) (d : ℕ → ℚ) (i t : ℕ) : ℚ :=
  on_hand cfg d i t + pipeline_inventory cfg d i t

/-! ### Metrics (lines 108-134)

`bullwhip = [np.var(orders[i, burn_in:]) / np.var(customer_demand[burn_in:])
for i in range(stages)]` is a plain float division; when the demand window
is constant its variance is 0 and IEEE-754 division yields +∞ (positive
numerator) or NaN (zero numerator).  `FVal` models exactly this outcome
space; the finite arithmetic itself is exact over `ℚ`. -/

/-- Result of a float division: a finite value, a signed infinity, or NaN. -/
inductive FVal where
  | fin (q : ℚ)
  | posInf
  | negInf
  | nan
  deriving DecidableEq, Repr

/-- IEEE-754 division of finite values `a / b`. -/
def fdiv (a b : ℚ) : FVal :=
  if b = 0 then
    if 0 < a then FVal.posInf else if a < 0 then FVal.negInf else FVal.nan
  else FVal.fin (a / b)

/-- The comparison `r <= c` (line 134) on a float division result: NaN
compares false, +∞ ≤ c is false, −∞ ≤ c is true. -/
def fleB : FVal → ℚ → Bool
  | FVal.fin q, c => decide (q ≤ c)
  | FVal.posInf, _ => false
  | FVal.negInf, _ => true
  | FVal.nan, _ => false

/-- Mean of `f` over the index window `[a, b)` (`np.mean` of a slice). -/
def npMean (f : ℕ → ℚ) (a b : ℕ) : ℚ :=
  (∑ k in Finset.Ico a b, f k) / ((b - a : ℕ) : ℚ)

/-- Population variance of `f` over the index window `[a, b)` (`np.var`,
default `ddof = 0`). -/
def npVar (f : ℕ → ℚ) (a b : ℕ) : ℚ :=
  (∑ k in Finset.Ico a b, (f k - npMean f a b) ^ 2) / ((b - a : ℕ) : ℚ)

/-- `TARGET = 1.5` (line 8). -/
def TARGET : ℚ := 3 / 2

/-- `SERVICE_TARGET = 0.95` (line 9). -/
def SERVICE_TARGET : ℚ := 19 / 20

/-- Bullwhip ratio of stage `i` (line 110), over the post-burn-in window
`[burn_in, T)`, as a float-division result. -/
def bullwhip (cfg : Config) (d : ℕ → ℚ) (T burn_in i : ℕ) : FVal :=
  fdiv (npVar (fun t => orders cfg d i t) burn_in T) (npVar d burn_in T)

/-- Service level of stage `i` (line 111): 1 minus the mean stockout
indicator over the post-burn-in window. -/
def service_levels (cfg : Config) (d : ℕ → ℚ) (T burn_in i : ℕ) : ℚ :=
  1 - npMean (fun t => if stockouts cfg d i t then 1 else 0) burn_in T

/-- Challenge-status evaluation (line 134): every stage's bullwhip ratio is
`≤ TARGET` and every stage's service level is `≥ SERVICE_TARGET`. -/
def success (cfg : Config) (d : ℕ → ℚ) (T burn_in : ℕ) : Bool :=
  ((List.range stages).all fun i => fleB (bullwhip cfg d T burn_in i) TARGET)
    && ((List.range stages).all fun i =>
      decide (SERVICE_TARGET ≤ service_levels cfg d T burn_in i))

/-! ### Structural lemmas about the embedding -/

/-- Rows already computed do not change as the history grows. -/
theorem upTo_stable (cfg : Config) (d : ℕ → ℚ) :
    ∀ t k i, k ≤ t → upTo cfg d t k i = upTo cfg d k k i := by
  intro t
  induction t with
  | zero =>
      intro k i hk
      have : k = 0 := Nat.le_zero.mp hk
      subst this; rfl
  | succ t ih =>
      intro k i hk
      rcases Nat.lt_or_ge k (t + 1) with h | h
      · have hk' : k ≤ t := Nat.lt_succ_iff.mp h
        rw [upTo, if_pos hk']
        exact ih k i hk'
      · have : k = t + 1 := le_antisymm hk h
        subst this; rfl

/-- The period-`t+1` rows are the result of the inner stage loop run on the
period-`t` rows and the order history. -/
theorem row_succ (cfg : Config) (d : ℕ → ℚ) (i t : ℕ) :
    row cfg d i (t + 1) =
      stageRows cfg d (fun j => row cfg d j t)
        (fun j m => if m ≤ t then orders cfg d j m else 0) (t + 1) i := by
  show upTo cfg d (t + 1) (t + 1) i = _
  rw [upTo, if_neg (Nat.not_succ_le_self t)]
  have h2 : (fun j m => if m ≤ t then (upTo cfg d t m j).order else 0)
      = fun j m => if m ≤ t then orders cfg d j m else 0 := by
    funext j m
    by_cases hm : m ≤ t
    · simp only [if_pos hm, orders, row, upTo_stable cfg d t m j hm]
    · simp only [if_neg hm]
  rw [h2]; rfl

theorem mkRow_demand_eq (cfg : Config) (dval oh0 f0 : ℚ) (pastO : ℕ → ℚ)
    (t : ℕ) (dm : ℚ) : (mkRow cfg dval oh0 f0 pastO t dm).demand = dm := rfl

theorem mkRow_arriving_eq (cfg : Config) (dval oh0 f0 : ℚ) (pastO : ℕ → ℚ)
    (t : ℕ) (dm : ℚ) :
    (mkRow cfg dval oh0 f0 pastO t dm).arriving =
      if cfg.lead_time ≤ t then pastO (t - cfg.lead_time)
      else cfg.mean_demand := rfl

theorem mkRow_pre_clamp_eq (cfg : Config) (dval oh0 f0 : ℚ) (pastO : ℕ → ℚ)
    (t : ℕ) (dm : ℚ) :
    (mkRow cfg dval oh0 f0 pastO t dm).pre_clamp =
      oh0 + (mkRow cfg dval oh0 f0 pastO t dm).arriving - dm := rfl

theorem mkRow_on_hand_eq (cfg : Config) (dval oh0 f0 : ℚ) (pastO : ℕ → ℚ)
    (t : ℕ) (dm : ℚ) :
    (mkRow cfg dval oh0 f0 pastO t dm).on_hand =
      if (mkRow cfg dval oh0 f0 pastO t dm).pre_clamp < 0 then 0
      else (mkRow cfg dval oh0 f0 pastO t dm).pre_clamp := rfl

theorem mkRow_stockout_eq (cfg : Config) (dval oh0 f0 : ℚ) (pastO : ℕ → ℚ)
    (t : ℕ) (dm : ℚ) :
    (mkRow cfg dval oh0 f0 pastO t dm).stockout =
      decide ((mkRow cfg dval oh0 f0 pastO t dm).pre_clamp < 0) := rfl

theorem mkRow_forecast_eq (cfg : Config) (dval oh0 f0 : ℚ) (pastO : ℕ → ℚ)
    (t : ℕ) (dm : ℚ) :
    (mkRow cfg dval oh0 f0 pastO t dm).forecast =
      cfg.alpha * (if cfg.info_sharing then dval else dm)
        + (1 - cfg.alpha) * f0 := rfl

theorem mkRow_raw_order_eq (cfg : Config) (dval oh0 f0 : ℚ) (pastO : ℕ → ℚ)
    (t : ℕ) (dm : ℚ) :
    (mkRow cfg dval oh0 f0 pastO t dm).raw_order =
      max ((mkRow cfg dval oh0 f0 pastO t dm).forecast * (cfg.lead_time + 1)
        + cfg.fixed_safety_stock
        - ((mkRow cfg dval oh0 f0 pastO t dm).on_hand
          + ∑ k in Finset.Ico (t - cfg.lead_time) t, pastO k)) 0 := rfl

theorem mkRow_order_eq (cfg : Config) (dval oh0 f0 : ℚ) (pastO : ℕ → ℚ)
    (t : ℕ) (dm : ℚ) :
    (mkRow cfg dval oh0 f0 pastO t dm).order =
      if cfg.mean_demand < (mkRow cfg dval oh0 f0 pastO t dm).raw_order
      then (mkRow cfg dval oh0 f0 pastO t dm).raw_order * cfg.order_multiplier
      else (mkRow cfg dval oh0 f0 pastO t dm).raw_order := rfl

/-- Stage 0 realizes the external customer demand (line 69). -/
theorem demand_zero_stage (cfg : Config) (d : ℕ → ℚ) (s : ℕ) :
    demand cfg d 0 (s + 1) = d (s + 1) := by
  show (row cfg d 0 (s + 1)).demand = d (s + 1)
  rw [row_succ]; rfl

/-- Stage `i+1` realizes stage `i`'s same-period order (line 71). -/
theorem demand_succ_stage (cfg : Config) (d : ℕ → ℚ) (i s : ℕ) :
    demand cfg d (i + 1) (s + 1) = orders cfg d i (s + 1) := by
  show (row cfg d (i + 1) (s + 1)).demand = (row cfg d i (s + 1)).order
  rw [row_succ, row_succ]; rfl

/-- Master recurrence: any simulated row at period `s+1` is a `mkRow` of the
stage's previous on-hand and forecast, its order history, and its realized
demand. -/
theorem row_eq_mkRow (cfg : Config) (d : ℕ → ℚ) (i s : ℕ) :
    row cfg d i (s + 1) =
      mkRow cfg (d (s + 1)) (on_hand cfg d i s) (forecast cfg d i s)
        (fun m => if m ≤ s then orders cfg d i m else 0) (s + 1)
        (demand cfg d i (s + 1)) := by
  cases i with
  | zero =>
      rw [demand_zero_stage, row_succ]
      rfl
  | succ j =>
      rw [demand_succ_stage, row_succ]
      show stageRows cfg d (fun j' => row cfg d j' s) _ (s + 1) (j + 1) = _
      rw [stageRows]
      have : (stageRows cfg d (fun j' => row cfg d j' s)
          (fun j' m => if m ≤ s then orders cfg d j' m else 0) (s + 1) j).order
          = orders cfg d j (s + 1) := by
        rw [← row_succ]; rfl
      rw [this]
      rfl

/-! ### Period-0 values and per-field recurrences -/

theorem row_zero (cfg : Config) (d : ℕ → ℚ) (i : ℕ) :
    row cfg d i 0 = initRow cfg := rfl

theorem orders_zero (cfg : Config) (d : ℕ → ℚ) (i : ℕ) :
    orders cfg d i 0 = 0 := rfl

theorem on_hand_zero (cfg : Config) (d : ℕ → ℚ) (i : ℕ) :
    on_hand cfg d i 0 = cfg.fixed_safety_stock + cfg.mean_demand * (3 / 2) :=
  rfl

theorem forecast_zero (cfg : Config) (d : ℕ → ℚ) (i : ℕ) :
    forecast cfg d i 0 = cfg.mean_demand := rfl

theorem stockouts_zero (cfg : Config) (d : ℕ → ℚ) (i : ℕ) :
    stockouts cfg d i 0 = false := rfl

/-- Shipment receipt (lines 74-77), at the accessor level. -/
theorem arriving_order_succ (cfg : Config) (d : ℕ → ℚ) (i s : ℕ) :
    arriving_order cfg d i (s + 1) =
      if cfg.lead_time ≤ s + 1 then
        (if s + 1 - cfg.lead_time ≤ s then
          orders cfg d i (s + 1 - cfg.lead_time) else 0)
      else cfg.mean_demand := by
  show (row cfg d i (s + 1)).arriving = _
  rw [row_eq_mkRow, mkRow_arriving_eq]

/-- Pre-clamp inventory update (line 80), at the accessor level. -/
theorem pre_clamp_succ (cfg : Config) (d : ℕ → ℚ) (i s : ℕ) :
    pre_clamp cfg d i (s + 1) =
      on_hand cfg d i s + arriving_order cfg d i (s + 1)
        - demand cfg d i (s + 1) := by
  show (row cfg d i (s + 1)).pre_clamp = _
  conv_lhs => rw [row_eq_mkRow, mkRow_pre_clamp_eq, ← row_eq_mkRow]
  rfl

/-- Lost-sales clamping (lines 83-85), at the accessor level. -/
theorem on_hand_succ (cfg : Config) (d : ℕ → ℚ) (i s : ℕ) :
    on_hand cfg d i (s + 1) =
      if pre_clamp cfg d i (s + 1) < 0 then 0
      else pre_clamp cfg d i (s + 1) := by
  show (row cfg d i (s + 1)).on_hand = _
  conv_lhs => rw [row_eq_mkRow, mkRow_on_hand_eq, ← row_eq_mkRow]
  rfl

/-- Stockout recording (line 84), at the accessor level. -/
theorem stockouts_succ (cfg : Config) (d : ℕ → ℚ) (i s : ℕ) :
    stockouts cfg d i (s + 1) =
      decide (pre_clamp cfg d i (s + 1) < 0) := by
  show (row cfg d i (s + 1)).stockout = _
  conv_lhs => rw [row_eq_mkRow, mkRow_stockout_eq, ← row_eq_mkRow]
  rfl

/-- Forecast update (lines 88-89), at the accessor level. -/
theorem forecast_succ (cfg : Config) (d : ℕ → ℚ) (i s : ℕ) :
    forecast cfg d i (s + 1) =
      cfg.alpha * (if cfg.info_sharing then d (s + 1)
          else demand cfg d i (s + 1))
        + (1 - cfg.alpha) * forecast cfg d i s := by
  show (row cfg d i (s + 1)).forecast = _
  rw [row_eq_mkRow, mkRow_forecast_eq]

/-- Raw base-stock order (lines 92-99), at the accessor level: the guarded
order history coincides with `pipeline_inventory` since all summed indices
lie strictly below `s + 1`. -/
theorem raw_order_succ (cfg : Config) (d : ℕ → ℚ) (i s : ℕ) :
    raw_order cfg d i (s + 1) =
      max (forecast cfg d i (s + 1) * (cfg.lead_time + 1)
        + cfg.fixed_safety_stock - inventory_position cfg d i (s + 1)) 0 := by
  show (row cfg d i (s + 1)).raw_order = _
  conv_lhs => rw [row_eq_mkRow, mkRow_raw_order_eq, ← row_eq_mkRow]
  have hsum : (∑ k in Finset.Ico (s + 1 - cfg.lead_time) (s + 1),
        (if k ≤ s then orders cfg d i k else 0))
      = pipeline_inventory cfg d i (s + 1) := by
    refine Finset.sum_congr rfl ?_
    intro k hk
    have : k ≤ s := Nat.lt_succ_iff.mp (Finset.mem_Ico.mp hk).2
    rw [if_pos this]
  rw [hsum]
  rfl

/-- Shortage-gaming branch and order placement (lines 102-105), at the
accessor level. -/
theorem orders_succ (cfg : Config) (d : ℕ → ℚ) (i s : ℕ) :
    orders cfg d i (s + 1) =
      if cfg.mean_demand < raw_order cfg d i (s + 1)
      then raw_order cfg d i (s + 1) * cfg.order_multiplier
      else raw_order cfg d i (s + 1) := by
  show (row cfg d i (s + 1)).order = _
  conv_lhs => rw [row_eq_mkRow, mkRow_order_eq, ← row_eq_mkRow]
  rfl

/-! ### Evaluation forms of the recurrences (phrased with `t - 1` so that
`simp`/`norm_num` can unfold concrete numeral periods). -/

theorem exists_pred_succ {t : ℕ} (ht : 1 ≤ t) : ∃ s, t = s + 1 :=
  ⟨t - 1, (Nat.succ_pred_eq_of_pos ht).symm⟩

theorem demand0_eval (cfg : Config) (d : ℕ → ℚ) (t : ℕ) (ht : 1 ≤ t) :
    demand cfg d 0 t = d t := by
  obtain ⟨s, rfl⟩ := exists_pred_succ ht
  exact demand_zero_stage cfg d s

theorem demand_eval (cfg : Config) (d : ℕ → ℚ) (i t : ℕ) (hi : 1 ≤ i)
    (ht : 1 ≤ t) : demand cfg d i t = orders cfg d (i - 1) t := by
  obtain ⟨s, rfl⟩ := exists_pred_succ ht
  obtain ⟨j, rfl⟩ := exists_pred_succ hi
  simpa using demand_succ_stage cfg d j s

theorem arriving_order_eval (cfg : Config) (d : ℕ → ℚ) (i t : ℕ)
    (ht : 1 ≤ t) :
    arriving_order cfg d i t =
      if cfg.lead_time ≤ t then
        (if t - cfg.lead_time ≤ t - 1 then
          orders cfg d i (t - cfg.lead_time) else 0)
      else cfg.mean_demand := by
  obtain ⟨s, rfl⟩ := exists_pred_succ ht
  simpa using arriving_order_succ cfg d i s

theorem pre_clamp_eval (cfg : Config) (d : ℕ → ℚ) (i t : ℕ) (ht : 1 ≤ t) :
    pre_clamp cfg d i t =
      on_hand cfg d i (t - 1) + arriving_order cfg d i t
        - demand cfg d i t := by
  obtain ⟨s, rfl⟩ := exists_pred_succ ht
  simpa using pre_clamp_succ cfg d i s

theorem on_hand_eval (cfg : Config) (d : ℕ → ℚ) (i t : ℕ) (ht : 1 ≤ t) :
    on_hand cfg d i t =
      if pre_clamp cfg d i t < 0 then 0 else pre_clamp cfg d i t := by
  obtain ⟨s, rfl⟩ := exists_pred_succ ht
  exact on_hand_succ cfg d i s

theorem stockouts_eval (cfg : Config) (d : ℕ → ℚ) (i t : ℕ) (ht : 1 ≤ t) :
    stockouts cfg d i t = decide (pre_clamp cfg d i t < 0) := by
  obtain ⟨s, rfl⟩ := exists_pred_succ ht
  exact stockouts_succ cfg d i s

theorem forecast_eval (cfg : Config) (d : ℕ → ℚ) (i t : ℕ) (ht : 1 ≤ t) :
    forecast cfg d i t =
      cfg.alpha * (if cfg.info_sharing then d t else demand cfg d i t)
        + (1 - cfg.alpha) * forecast cfg d i (t - 1) := by
  obtain ⟨s, rfl⟩ := exists_pred_succ ht
  simpa using forecast_succ cfg d i s

theorem raw_order_eval (cfg : Config) (d : ℕ → ℚ) (i t : ℕ) (ht : 1 ≤ t) :
    raw_order cfg d i t =
      max (forecast cfg d i t * (cfg.lead_time + 1)
        + cfg.fixed_safety_stock - inventory_position cfg d i t) 0 := by
  obtain ⟨s, rfl⟩ := exists_pred_succ ht
  exact raw_order_succ cfg d i s

theorem orders_eval (cfg : Config) (d : ℕ → ℚ) (i t : ℕ) (ht : 1 ≤ t) :
    orders cfg d i t =
      if cfg.mean_demand < raw_order cfg d i t
      then raw_order cfg d i t * cfg.order_multiplier
      else raw_order cfg d i t := by
  obtain ⟨s, rfl⟩ := exists_pred_succ ht
  exact orders_succ cfg d i s

/-! ### Concrete test inputs

All configurations below are reachable through the sidebar widgets:
lead time 3 ∈ [2,8], α = 0.40 (the default) ∈ [0.05, 0.90], order
multiplier 1.0 or 2.0 ∈ [1.0, 2.0], safety-stock multiplier 1.0 ∈ [0.5, 3.0];
`mean_demand = 100` and `std_demand = 30` are the script's constants, and
with lead time 3 the safety stock `1 * 30 * sqrt(4) = 60` is exact. -/

/-- Sidebar configuration with lead time 3, α = 0.40, multiplier 1.0,
safety-stock multiplier 1.0 (`fixed_safety_stock = 1 * 30 * sqrt 4 = 60`). -/
def cfgA : Config :=
  { lead_time := 3
    alpha := 2 / 5
    order_multiplier := 1
    safety_stock_multiplier := 1
    info_sharing := false
    mean_demand := 100
    std_demand := 30
    fixed_safety_stock := 60 }

/-- `cfgA` with the shortage-gaming multiplier raised to 2.0. -/
def cfgB : Config := { cfgA with order_multiplier := 2 }

/-- A constant customer-demand series. -/
def dConst : ℕ → ℚ := fun _ => 100

/-- A customer-demand series with a single small bump at period 3. -/
def dP : ℕ → ℚ := fun t => if t = 3 then 110 else 100

theorem oAc1 : orders cfgA dConst 0 1 = 250 := by
  norm_num [orders_eval, raw_order_eval, forecast_eval, demand0_eval,
    on_hand_eval, pre_clamp_eval, arriving_order_eval,
    pipeline_inventory, inventory_position, orders_zero, on_hand_zero,
    forecast_zero, cfgA, dConst, Finset.sum_Ico_eq_sum_range]

theorem oAc2 : orders cfgA dConst 0 2 = 0 := by
  norm_num [orders_eval, raw_order_eval, forecast_eval, demand0_eval,
    on_hand_eval, pre_clamp_eval, arriving_order_eval,
    pipeline_inventory, inventory_position, orders_zero, on_hand_zero,
    forecast_zero, oAc1, cfgA, dConst, Finset.sum_Ico_eq_sum_range,
    Finset.sum_range_succ]

theorem oAP1 : orders cfgA dP 0 1 = 250 := by
  norm_num [orders_eval, raw_order_eval, forecast_eval, demand0_eval,
    on_hand_eval, pre_clamp_eval, arriving_order_eval,
    pipeline_inventory, inventory_position, orders_zero, on_hand_zero,
    forecast_zero, cfgA, dP, Finset.sum_Ico_eq_sum_range]

theorem oAP2 : orders cfgA dP 0 2 = 0 := by
  norm_num [orders_eval, raw_order_eval, forecast_eval, demand0_eval,
    on_hand_eval, pre_clamp_eval, arriving_order_eval,
    pipeline_inventory, inventory_position, orders_zero, on_hand_zero,
    forecast_zero, oAP1, cfgA, dP, Finset.sum_Ico_eq_sum_range,
    Finset.sum_range_succ]

theorem oAP3 : orders cfgA dP 0 3 = 126 := by
  norm_num [orders_eval, raw_order_eval, forecast_eval, demand0_eval,
    on_hand_eval, pre_clamp_eval, arriving_order_eval,
    pipeline_inventory, inventory_position, orders_zero, on_hand_zero,
    forecast_zero, oAP1, oAP2, cfgA, dP, Finset.sum_Ico_eq_sum_range,
    Finset.sum_range_succ]

theorem oBP1 : orders cfgB dP 0 1 = 500 := by
  norm_num [orders_eval, raw_order_eval, forecast_eval, demand0_eval,
    on_hand_eval, pre_clamp_eval, arriving_order_eval,
    pipeline_inventory, inventory_position, orders_zero, on_hand_zero,
    forecast_zero, cfgB, cfgA, dP, Finset.sum_Ico_eq_sum_range]

theorem oBP2 : orders cfgB dP 0 2 = 0 := by
  norm_num [orders_eval, raw_order_eval, forecast_eval, demand0_eval,
    on_hand_eval, pre_clamp_eval, arriving_order_eval,
    pipeline_inventory, inventory_position, orders_zero, on_hand_zero,
    forecast_zero, oBP1, cfgB, cfgA, dP, Finset.sum_Ico_eq_sum_range,
    Finset.sum_range_succ]

theorem oBP3 : orders cfgB dP 0 3 = 0 := by
  norm_num [orders_eval, raw_order_eval, forecast_eval, demand0_eval,
    on_hand_eval, pre_clamp_eval, arriving_order_eval,
    pipeline_inventory, inventory_position, orders_zero, on_hand_zero,
    forecast_zero, oBP1, oBP2, cfgB, cfgA, dP, Finset.sum_Ico_eq_sum_range,
    Finset.sum_range_succ]

theorem dmA11 : demand cfgA dConst 1 1 = 250 := by
  rw [demand_eval cfgA dConst 1 1 le_rfl le_rfl]
  exact oAc1

theorem varDc : npVar dConst 1 3 = 0 := by
  norm_num [npVar, npMean, dConst, Finset.sum_Ico_eq_sum_range,
    Finset.sum_range_succ]

theorem varOAc : npVar (fun t => orders cfgA dConst 0 t) 1 3 = 15625 := by
  norm_num [npVar, npMean, oAc1, oAc2, Finset.sum_Ico_eq_sum_range,
    Finset.sum_range_succ]

theorem bwAc : bullwhip cfgA dConst 3 1 0 = FVal.posInf := by
  rw [bullwhip, varDc, varOAc, fdiv]
  norm_num

theorem varDP : npVar dP 2 4 = 25 := by
  norm_num [npVar, npMean, dP, Finset.sum_Ico_eq_sum_range,
    Finset.sum_range_succ]

theorem varOAP : npVar (fun t => orders cfgA dP 0 t) 2 4 = 3969 := by
  norm_num [npVar, npMean, oAP2, oAP3, Finset.sum_Ico_eq_sum_range,
    Finset.sum_range_succ]

theorem varOBP : npVar (fun t => orders cfgB dP 0 t) 2 4 = 0 := by
  norm_num [npVar, npMean, oBP2, oBP3, Finset.sum_Ico_eq_sum_range,
    Finset.sum_range_succ]

theorem bwAP : bullwhip cfgA dP 4 2 0 = FVal.fin (3969 / 25) := by
  rw [bullwhip, varDP, varOAP, fdiv]
  norm_num

theorem bwBP : bullwhip cfgB dP 4 2 0 = FVal.fin 0 := by
  rw [bullwhip, varDP, varOBP, fdiv]
  norm_num

/-! ### Further auxiliary facts -/

/-- `cfgA` with information sharing enabled. -/
def cfgI : Config := { cfgA with info_sharing := true }

/-- `cfgA` with the smoothing weight α set to 2, outside the spec's valid
range (0, 1]. -/
def cfgBad : Config := { cfgA with alpha := 2 }

/-- The widget ranges of the sidebar sliders (lines 40-44): lead time in
[2, 8], α in [0.05, 0.90], order cushioning multiplier in [1.0, 2.0],
safety-stock multiplier in [0.5, 3.0]. -/
def sliderReachable (cfg : Config) : Prop :=
  2 ≤ cfg.lead_time ∧ cfg.lead_time ≤ 8 ∧
  1 / 20 ≤ cfg.alpha ∧ cfg.alpha ≤ 9 / 10 ∧
  1 ≤ cfg.order_multiplier ∧ cfg.order_multiplier ≤ 2 ∧
  1 / 2 ≤ cfg.safety_stock_multiplier ∧ cfg.safety_stock_multiplier ≤ 3

/-- The script's fixed horizon `T = 400` (line 34). -/
def scriptT : ℕ := 400

/-- At period 1 a stage's pipeline inventory is 0: the only possibly summed
order entry is the stage's own period-0 order, which is 0. -/
theorem pipeline_one (cfg : Config) (d : ℕ → ℚ) (i : ℕ) :
    pipeline_inventory cfg d i 1 = 0 := by
  rw [pipeline_inventory]
  apply Finset.sum_eq_zero
  intro k hk
  have hk1 : k < 1 := (Finset.mem_Ico.mp hk).2
  interval_cases k
  exact orders_zero cfg d i

/-- At period 1 the credited inflow does not depend on the stage or on any
placed order: it is the mean-demand fallback for lead time > 1, and the
(zero) period-0 or unwritten order entry for lead time ≤ 1. -/
theorem arriving_one (cfg : Config) (d : ℕ → ℚ) (i : ℕ) :
    arriving_order cfg d i 1 =
      if cfg.lead_time ≤ 1 then 0 else cfg.mean_demand := by
  rw [arriving_order_eval cfg d i 1 le_rfl]
  by_cases h : cfg.lead_time ≤ 1
  · rw [if_pos h, if_pos h]
    rcases Nat.le_one_iff_eq_zero_or_eq_one.mp h with h0 | h1
    · rw [h0]
      norm_num
    · rw [h1]
      norm_num
      exact orders_zero cfg d i
  · rw [if_neg h, if_neg h]

/-- Monotonicity of the shortage-gaming step (lines 102-105) in both the raw
order and the multiplier. -/
theorem gaming_mono (mean r1 r2 m1 m2 : ℚ) (hr2 : 0 ≤ r2)
    (hr : r1 ≤ r2) (hm1 : 1 ≤ m1) (hm12 : m1 ≤ m2) :
    (if mean < r1 then r1 * m1 else r1)
      ≤ (if mean < r2 then r2 * m2 else r2) := by
  split_ifs with h1 h2 h2
  · exact mul_le_mul hr hm12 (zero_le_one.trans hm1) hr2
  · linarith
  · calc r1 ≤ r2 := hr
      _ ≤ r2 * m2 := le_mul_of_one_le_right hr2 (hm1.trans hm12)
  · exact hr

/-- Monotonicity of the raw base-stock gap in the realized demand, for a
shared previous state: a larger demand raises the forecast-driven target and
lowers the clamped on-hand, so the floored gap cannot shrink. -/
theorem raw_mono_aux (alpha c fss Lq pipe : ℚ) (obs1 obs2 p1 p2 : ℚ)
    (ha : 0 ≤ alpha) (hL1 : 0 ≤ Lq) (hobs : obs1 ≤ obs2) (hp : p2 ≤ p1) :
    max ((alpha * obs1 + c) * Lq + fss
      - ((if p1 < 0 then 0 else p1) + pipe)) 0
      ≤ max ((alpha * obs2 + c) * Lq + fss
        - ((if p2 < 0 then 0 else p2) + pipe)) 0 := by
  apply max_le_max _ le_rfl
  have hoh : (if p2 < 0 then 0 else p2) ≤ (if p1 < 0 then 0 else p1) := by
    split_ifs with a b b
    · exact le_rfl
    · linarith [not_lt.mp b]
    · linarith [not_lt.mp a]
    · exact hp
  have hf : alpha * obs1 + c ≤ alpha * obs2 + c :=
    add_le_add_right (mul_le_mul_of_nonneg_left hobs ha) c
  have := mul_le_mul_of_nonneg_right hf hL1
  linarith

/-! ### Claims -/

/-- C1 (amended): for every period t ≥ 1, stage 0's realized demand equals
the external customer demand at t, and stage i > 0's realized demand equals
the order stage i−1 placed in the SAME period t (line 71 reads
`orders[i-1, t]`, already written earlier in this period's stage loop) — not
the prior period t−1 as the claim states. -/
theorem C1_demand_propagation (cfg : Config) (d : ℕ → ℚ) (t : ℕ)
    (ht : 1 ≤ t) :
    demand cfg d 0 t = d t ∧
      ∀ i, 1 ≤ i → i < stages →
        demand cfg d i t = orders cfg d (i - 1) t :=
  ⟨demand0_eval cfg d t ht, fun i hi _ => demand_eval cfg d i t hi ht⟩

/-- C1 witness: the amended propagation rule at a concrete configuration,
stage 1, period 1. -/
theorem C1_demand_propagation_witness :
    (1 : ℕ) ≤ 1 ∧ demand cfgA dConst 0 1 = dConst 1 ∧
      demand cfgA dConst 1 1 = orders cfgA dConst 0 1 :=
  ⟨le_rfl, (C1_demand_propagation cfgA dConst 1 le_rfl).1,
    (C1_demand_propagation cfgA dConst 1 le_rfl).2 1 le_rfl
      (by norm_num [stages])⟩

/-- C1 counterexample to the claim as stated: at the concrete configuration
`cfgA` with constant demand, stage 1's realized demand at period 1 is 250
(stage 0's period-1 order), whereas stage 0's prior-period order
`orders[0, 0]` is 0 — so `demandRealized[1,1] ≠ orderPlaced[0,0]`. -/
theorem C1_counterexample :
    demand cfgA dConst 1 1 = 250 ∧ orders cfgA dConst 0 0 = 0 ∧
      (250 : ℚ) ≠ 0 :=
  ⟨dmA11, orders_zero cfgA dConst 0, by norm_num⟩

/-- C2 (amended): if the customer demand is constant (zero variance) over
the post-burn-in window, every stage's bullwhip ratio is the raw IEEE
division result — +∞ when the stage's order variance is positive, NaN when
it is zero — rather than an explicitly tagged undefined value; the
challenge-success evaluation nevertheless returns false (both +∞ ≤ 1.5 and
NaN ≤ 1.5 evaluate false), treating the run as target-not-met without
crashing. -/
theorem C2_degenerate_variance (cfg : Config) (d : ℕ → ℚ) (T b : ℕ)
    (hb : b < T) (hvar : npVar d b T = 0) :
    (∀ i, i < stages →
      bullwhip cfg d T b i = FVal.posInf ∨
        bullwhip cfg d T b i = FVal.nan) ∧
    success cfg d T b = false := by
  have key : ∀ i, bullwhip cfg d T b i = FVal.posInf ∨
      bullwhip cfg d T b i = FVal.nan := by
    intro i
    have hnum : 0 ≤ npVar (fun t => orders cfg d i t) b T := by
      rw [npVar]
      apply div_nonneg
      · apply Finset.sum_nonneg
        intro k _
        positivity
      · positivity
    rw [bullwhip, hvar, fdiv, if_pos rfl]
    rcases hnum.lt_or_eq with h | h
    · left
      rw [if_pos h]
    · right
      have h0 : ¬(0 : ℚ) < npVar (fun t => orders cfg d i t) b T := by
        rw [← h]
        exact lt_irrefl 0
      have h1 : ¬npVar (fun t => orders cfg d i t) b T < 0 := by
        rw [← h]
        exact lt_irrefl 0
      rw [if_neg h0, if_neg h1]
  refine ⟨fun i _ => key i, ?_⟩
  have hfle : fleB (bullwhip cfg d T b 0) TARGET = false := by
    rcases key 0 with h | h <;> rw [h] <;> rfl
  have hrange : List.range stages = [0, 1, 2, 3] := rfl
  rw [success, hrange]
  simp [hfle]

/-- C2 witness: the degenerate-variance behavior at a concrete constant
demand series over the window [1, 3). -/
theorem C2_degenerate_variance_witness :
    1 < 3 ∧ npVar dConst 1 3 = 0 ∧ success cfgA dConst 3 1 = false :=
  ⟨by norm_num, varDc,
    (C2_degenerate_variance cfgA dConst 3 1 (by norm_num) varDc).2⟩

/-- C2 counterexample to the claim as stated: with constant customer demand
(variance 0 over the window [1,3)) the bullwhip ratio of stage 0 under
`cfgA` is +∞ — the value IS silently coerced to infinity, not reported as a
NaN-tagged / explicitly undefined value. -/
theorem C2_counterexample :
    npVar dConst 1 3 = 0 ∧ bullwhip cfgA dConst 3 1 0 = FVal.posInf :=
  ⟨varDc, bwAc⟩

/-- C3: for every stage and period t ≥ 1, the raw gap is
`max(forecast*(leadTime+1) + fixed_safety_stock − inventoryPosition, 0)`
with the inventory position equal to post-clamp on-hand plus the stage's own
orders over `[t−leadTime, t)`, and the placed order applies the
shortage-gaming multiplier exactly when the raw gap exceeds `mean_demand`
(the floor at 0 after inflation is stated explicitly; it is a no-op since
the gap is already nonnegative and the multiplier is ≥ 1).  The
`fixed_safety_stock` field is characterized as the value of
`safetyStockMultiplier * stdDev * sqrt(leadTime+1)` by the hypotheses
`0 ≤ fixed_safety_stock` and the squared identity. -/
theorem C3_order_rule (cfg : Config) (d : ℕ → ℚ) (i t : ℕ) (ht : 1 ≤ t)
    (hi : i < stages) (hmult : 1 ≤ cfg.order_multiplier)
    (hfss0 : 0 ≤ cfg.fixed_safety_stock)
    (hfss : cfg.fixed_safety_stock ^ 2 =
      cfg.safety_stock_multiplier ^ 2 * cfg.std_demand ^ 2 *
        (cfg.lead_time + 1)) :
    raw_order cfg d i t =
      max (forecast cfg d i t * (cfg.lead_time + 1)
        + cfg.fixed_safety_stock - inventory_position cfg d i t) 0 ∧
    orders cfg d i t =
      (if cfg.mean_demand < raw_order cfg d i t
        then max (raw_order cfg d i t * cfg.order_multiplier) 0
        else raw_order cfg d i t) := by
  refine ⟨raw_order_eval cfg d i t ht, ?_⟩
  rw [orders_eval cfg d i t ht]
  by_cases h : cfg.mean_demand < raw_order cfg d i t
  · rw [if_pos h, if_pos h]
    have hr : 0 ≤ raw_order cfg d i t := by
      rw [raw_order_eval cfg d i t ht]
      exact le_max_right _ _
    rw [max_eq_left (mul_nonneg hr (zero_le_one.trans hmult))]
  · rw [if_neg h, if_neg h]

/-- C3 witness: the base-stock order rule at `cfgA`, stage 0, period 1,
where `fixed_safety_stock = 60 = 1 * 30 * sqrt 4`. -/
theorem C3_order_rule_witness :
    ((1 : ℕ) ≤ 1 ∧ 0 < stages ∧ 1 ≤ cfgA.order_multiplier ∧
      0 ≤ cfgA.fixed_safety_stock ∧
      cfgA.fixed_safety_stock ^ 2 =
        cfgA.safety_stock_multiplier ^ 2 * cfgA.std_demand ^ 2 *
          (cfgA.lead_time + 1)) ∧
    orders cfgA dConst 0 1 =
      (if cfgA.mean_demand < raw_order cfgA dConst 0 1
        then max (raw_order cfgA dConst 0 1 * cfgA.order_multiplier) 0
        else raw_order cfgA dConst 0 1) :=
  ⟨⟨le_rfl, by norm_num [stages], by norm_num [cfgA], by norm_num [cfgA],
      by norm_num [cfgA]⟩,
    (C3_order_rule cfgA dConst 0 1 le_rfl (by norm_num [stages])
      (by norm_num [cfgA]) (by norm_num [cfgA]) (by norm_num [cfgA])).2⟩

/-- C4: on-hand inventory and placed orders are never negative: on-hand is
clamped at 0 each period (and the period-0 seed is nonnegative for a valid
configuration), and orders are a floored gap, possibly inflated by the
nonnegative multiplier. -/
theorem C4_nonnegativity (cfg : Config) (d : ℕ → ℚ)
    (hfss : 0 ≤ cfg.fixed_safety_stock) (hmean : 0 ≤ cfg.mean_demand)
    (hmult : 1 ≤ cfg.order_multiplier) (hd : ∀ t, 0 ≤ d t) :
    ∀ i t, 0 ≤ on_hand cfg d i t ∧ 0 ≤ orders cfg d i t := by
  intro i t
  cases t with
  | zero =>
      constructor
      · rw [on_hand_zero]
        have h32 : (0 : ℚ) ≤ cfg.mean_demand * (3 / 2) :=
          mul_nonneg hmean (by norm_num)
        linarith
      · rw [orders_zero]
  | succ s =>
      constructor
      · rw [on_hand_succ]
        split_ifs with h
        · exact le_rfl
        · exact not_lt.mp h
      · rw [orders_succ]
        have hraw : 0 ≤ raw_order cfg d i (s + 1) := by
          rw [raw_order_succ]
          exact le_max_right _ _
        split_ifs with h
        · exact mul_nonneg hraw (zero_le_one.trans hmult)
        · exact hraw

/-- C4 witness: non-negativity at `cfgA` with the constant demand series,
stage 0, period 1. -/
theorem C4_nonnegativity_witness :
    (0 ≤ cfgA.fixed_safety_stock ∧ 0 ≤ cfgA.mean_demand ∧
      1 ≤ cfgA.order_multiplier ∧ ∀ t, 0 ≤ dConst t) ∧
    (0 ≤ on_hand cfgA dConst 0 1 ∧ 0 ≤ orders cfgA dConst 0 1) :=
  ⟨⟨by norm_num [cfgA], by norm_num [cfgA], by norm_num [cfgA],
      fun t => by norm_num [dConst]⟩,
    C4_nonnegativity cfgA dConst (by norm_num [cfgA]) (by norm_num [cfgA])
      (by norm_num [cfgA]) (fun t => by norm_num [dConst]) 0 1⟩

/-- C5: for every stage and period t ≥ 1, the stockout flag is set exactly
when the pre-clamp inventory update
`on_hand[i,t-1] + arriving_order - demand` is negative. -/
theorem C5_stockout_iff (cfg : Config) (d : ℕ → ℚ) (i t : ℕ) (ht : 1 ≤ t) :
    stockouts cfg d i t = true ↔
      on_hand cfg d i (t - 1) + arriving_order cfg d i t
        - demand cfg d i t < 0 := by
  rw [stockouts_eval cfg d i t ht, pre_clamp_eval cfg d i t ht]
  simp

/-- C5 witness: the stockout characterization at `cfgA`, stage 0,
period 1. -/
theorem C5_stockout_iff_witness :
    (1 : ℕ) ≤ 1 ∧
      (stockouts cfgA dConst 0 1 = true ↔
        on_hand cfgA dConst 0 0 + arriving_order cfgA dConst 0 1
          - demand cfgA dConst 0 1 < 0) :=
  ⟨le_rfl, C5_stockout_iff cfgA dConst 0 1 le_rfl⟩

/-- C6: for lead time ≥ 1 (the slider enforces ≥ 2) and every simulated
period t ≥ 1: if t ≥ leadTime the shipment received equals the stage's own
order from period t − leadTime, and if t < leadTime the credited inflow is
the reference mean demand fallback. -/
theorem C6_shipment_delay (cfg : Config) (d : ℕ → ℚ) (i t : ℕ)
    (hL : 1 ≤ cfg.lead_time) (ht : 1 ≤ t) :
    (cfg.lead_time ≤ t →
      arriving_order cfg d i t = orders cfg d i (t - cfg.lead_time)) ∧
    (t < cfg.lead_time → arriving_order cfg d i t = cfg.mean_demand) := by
  rw [arriving_order_eval cfg d i t ht]
  constructor
  · intro h
    rw [if_pos h, if_pos (by omega)]
  · intro h
    rw [if_neg (by omega)]

/-- C6 witness: shipment delay at `cfgA` (lead time 3), stage 0, at periods
on both sides of the lead time. -/
theorem C6_shipment_delay_witness :
    (1 ≤ cfgA.lead_time ∧ (1 : ℕ) ≤ 5 ∧ (1 : ℕ) ≤ 2) ∧
    (cfgA.lead_time ≤ 5 →
      arriving_order cfgA dConst 0 5 =
        orders cfgA dConst 0 (5 - cfgA.lead_time)) ∧
    (2 < cfgA.lead_time → arriving_order cfgA dConst 0 2 = cfgA.mean_demand) :=
  ⟨⟨by norm_num [cfgA], by norm_num, by norm_num⟩,
    (C6_shipment_delay cfgA dConst 0 5 (by norm_num [cfgA]) (by norm_num)).1,
    (C6_shipment_delay cfgA dConst 0 2 (by norm_num [cfgA]) (by norm_num)).2⟩

/-- C7 (amended): the bullwhip ratio is NOT monotone in the shortage-gaming
multiplier (see the counterexample: an inflated period-1 order fills the
pipeline, suppresses later orders and can strictly reduce post-burn-in order
variance).  What does hold is first-period monotonicity: raising only the
multiplier never decreases any stage's period-1 order, the multiplier being
a pure inflator on the already nonnegative period-1 raw gaps. -/
theorem C7_first_period_monotone (cfg : Config) (m2 : ℚ) (d : ℕ → ℚ)
    (hm1 : 1 ≤ cfg.order_multiplier) (hm12 : cfg.order_multiplier ≤ m2)
    (ha : 0 ≤ cfg.alpha) :
    ∀ i, orders cfg d i 1 ≤
      orders { cfg with order_multiplier := m2 } d i 1 := by
  have step : ∀ i,
      demand cfg d i 1 ≤ demand { cfg with order_multiplier := m2 } d i 1 →
      orders cfg d i 1 ≤
        orders { cfg with order_multiplier := m2 } d i 1 := by
    intro i hx
    have hr2 : 0 ≤ raw_order { cfg with order_multiplier := m2 } d i 1 := by
      rw [raw_order_eval _ d i 1 le_rfl]
      exact le_max_right _ _
    have hrr : raw_order cfg d i 1 ≤
        raw_order { cfg with order_multiplier := m2 } d i 1 := by
      rw [raw_order_eval cfg d i 1 le_rfl, raw_order_eval _ d i 1 le_rfl,
        inventory_position, inventory_position, pipeline_one, pipeline_one,
        on_hand_eval cfg d i 1 le_rfl, on_hand_eval _ d i 1 le_rfl,
        pre_clamp_eval cfg d i 1 le_rfl, pre_clamp_eval _ d i 1 le_rfl,
        arriving_one, arriving_one, forecast_eval cfg d i 1 le_rfl,
        forecast_eval _ d i 1 le_rfl]
      show max ((cfg.alpha * _ + (1 - cfg.alpha) * forecast cfg d i 0)
          * _ + _ - _) 0 ≤ _
      rw [forecast_zero, forecast_zero]
      apply raw_mono_aux
      · exact ha
      · positivity
      · split_ifs
        · exact le_rfl
        · exact hx
      · simp only [Nat.sub_self]
        rw [on_hand_zero, on_hand_zero]
        dsimp only
        linarith
    rw [orders_eval cfg d i 1 le_rfl, orders_eval _ d i 1 le_rfl]
    exact gaming_mono _ _ _ _ _ hr2 hrr hm1 hm12
  intro i
  induction i with
  | zero =>
      apply step 0
      rw [demand0_eval cfg d 1 le_rfl, demand0_eval _ d 1 le_rfl]
  | succ j ih =>
      apply step (j + 1)
      rw [demand_eval cfg d (j + 1) 1 (by omega) le_rfl,
        demand_eval _ d (j + 1) 1 (by omega) le_rfl]
      simpa using ih

/-- C7 witness: first-period monotonicity from `cfgA` (multiplier 1) to
multiplier 2, stage 1. -/
theorem C7_first_period_monotone_witness :
    (1 ≤ cfgA.order_multiplier ∧ cfgA.order_multiplier ≤ 2 ∧
      0 ≤ cfgA.alpha) ∧
    orders cfgA dP 1 1 ≤ orders { cfgA with order_multiplier := 2 } dP 1 1 :=
  ⟨⟨by norm_num [cfgA], by norm_num [cfgA], by norm_num [cfgA]⟩,
    C7_first_period_monotone cfgA 2 dP (by norm_num [cfgA])
      (by norm_num [cfgA]) (by norm_num [cfgA]) 1⟩

/-- C7 counterexample to the claim as stated: `cfgB` is `cfgA` with only the
shortage-gaming multiplier raised from 1 to 2, yet on the same demand series
`dP` stage 0's bullwhip ratio over the window [2, 4) strictly DROPS from
3969/25 to 0 — increasing the multiplier decreased a stage's bullwhip
ratio. -/
theorem C7_counterexample :
    cfgB = { cfgA with order_multiplier := cfgB.order_multiplier } ∧
    cfgA.order_multiplier ≤ cfgB.order_multiplier ∧
    bullwhip cfgA dP 4 2 0 = FVal.fin (3969 / 25) ∧
    bullwhip cfgB dP 4 2 0 = FVal.fin 0 ∧
    (0 : ℚ) < 3969 / 25 :=
  ⟨rfl, by norm_num [cfgA, cfgB], bwAP, bwBP, by norm_num⟩

/-- C8 (amended): the script performs no explicit configuration validation;
instead the sidebar widget ranges make every reachable configuration valid
in the spec's sense (positive horizon, lead time ≥ 1 — in fact ≥ 2 — and
α ∈ (0, 1]).  An out-of-range configuration does not fail fast: the core
still produces simulation state (see the counterexample). -/
theorem C8_slider_ranges_valid (cfg : Config) (h : sliderReachable cfg) :
    0 < scriptT ∧ 1 ≤ cfg.lead_time ∧ 0 < cfg.alpha ∧ cfg.alpha ≤ 1 := by
  obtain ⟨h1, _, h3, h4, _⟩ := h
  exact ⟨by norm_num [scriptT], by omega, by linarith, by linarith⟩

/-- C8 witness: `cfgA` is slider-reachable and valid. -/
theorem C8_slider_ranges_valid_witness :
    sliderReachable cfgA ∧
      (0 < scriptT ∧ 1 ≤ cfgA.lead_time ∧ 0 < cfgA.alpha ∧ cfgA.alpha ≤ 1) :=
  ⟨by norm_num [sliderReachable, cfgA],
    C8_slider_ranges_valid cfgA (by norm_num [sliderReachable, cfgA])⟩

/-- C8 counterexample to the claim as stated: with α = 2, outside the valid
range (0, 1], the simulation does not fail with a validation error — it
produces a definite state (stage 0's period-1 forecast evaluates to 100). -/
theorem C8_counterexample :
    ¬cfgBad.alpha ≤ 1 ∧ forecast cfgBad dConst 0 1 = 100 := by
  constructor
  · norm_num [cfgBad, cfgA]
  · norm_num [forecast_eval, demand0_eval, forecast_zero, cfgBad, cfgA,
      dConst]

/-- C9: with information sharing enabled, every stage observes the same
customer-demand value each period and all forecasts start at `mean_demand`,
so the four stages' forecast series coincide at every period. -/
theorem C9_info_sharing_uniform_forecast (cfg : Config) (d : ℕ → ℚ)
    (hinfo : cfg.info_sharing = true) :
    ∀ t i j, i < stages → j < stages →
      forecast cfg d i t = forecast cfg d j t := by
  intro t
  induction t with
  | zero =>
      intro i j _ _
      rw [forecast_zero, forecast_zero]
  | succ s ih =>
      intro i j hi hj
      rw [forecast_succ, forecast_succ, hinfo]
      simp only [if_true]
      rw [ih i j hi hj]

/-- C9 witness: equal forecasts under information sharing at `cfgI`,
stages 2 and 3, period 1. -/
theorem C9_info_sharing_uniform_forecast_witness :
    cfgI.info_sharing = true ∧
      forecast cfgI dConst 2 1 = forecast cfgI dConst 3 1 :=
  ⟨rfl, C9_info_sharing_uniform_forecast cfgI dConst rfl 1 2 3
    (by norm_num [stages]) (by norm_num [stages])⟩

/-- C10: the per-period loop starts at t = 1, so the period-0 entries of the
output arrays keep their zero initialization: every stage's period-0 order
is 0 and its period-0 stockout flag is false. -/
theorem C10_initial_period (cfg : Config) (d : ℕ → ℚ) (i : ℕ) :
    orders cfg d i 0 = 0 ∧ stockouts cfg d i 0 = false :=
  ⟨orders_zero cfg d i, stockouts_zero cfg d i⟩

end Bullwhip
